import Mathlib

/-! Verification of the debounced watch-build-copy pipeline implemented in
`scripts/dev-watcher.py` (class `PluginDevWatcher`).

The embedding is shallow: the filesystem facts a function inspects
(existence, size, modification time of the files in the project root) are
collected in an environment record `FsEnv`; wall-clock instants are
rationals (Python's `time.time()` values); subprocess results are a record
`BuildResult`; the mutable watcher fields `last_copy_time` and
`last_rebuild_time` form the explicit state `WatchState`, threaded through
the handlers.  Each Lean definition mirrors the control flow of the Python
function of the same name.
-/

namespace DevWatcher

/-- Field `self.debounce_seconds` (cooldown of `_should_copy`). -/
def debounce_seconds : ℚ := 2

/-- Field `self.rebuild_debounce_seconds` (cooldown of `_should_rebuild`). -/
def rebuild_debounce_seconds : ℚ := 1

/-- The mutable debounce fields of `PluginDevWatcher`:
`self.last_copy_time` and `self.last_rebuild_time`. -/
structure WatchState where
  last_copy_time : ℚ
  last_rebuild_time : ℚ
deriving Repr, DecidableEq

/-- Filesystem view of the project root: for each file name, whether it
exists, its size in bytes, its modification time, and whether a
`shutil.copy2` of it into the plugin directory would succeed. -/
structure FsEnv where
  present : String → Bool
  size : String → Nat
  mtime : String → ℚ
  copy_ok : String → Bool

/-- Result of a `subprocess.run` build invocation: the exit code, and
whether `subprocess.TimeoutExpired` was raised (in which case no exit
code is available and the except branch runs). -/
structure BuildResult where
  returncode : Int
  timed_out : Bool
deriving Repr, DecidableEq

/-- `PluginDevWatcher._should_copy`: accepts iff more than
`debounce_seconds` elapsed since `last_copy_time`; on acceptance (and only
then) `last_copy_time` is set to the current time. -/
def should_copy (current_time : ℚ) (s : WatchState) : Bool × WatchState :=
  if current_time - s.last_copy_time > debounce_seconds then
    (true, { s with last_copy_time := current_time })
  else
    (false, s)

/-- `PluginDevWatcher._should_rebuild`: accepts iff more than
`rebuild_debounce_seconds` elapsed since `last_rebuild_time`; on
acceptance (and only then) `last_rebuild_time` is set to the current
time. -/
def should_rebuild (current_time : ℚ) (s : WatchState) : Bool × WatchState :=
  if current_time - s.last_rebuild_time > rebuild_debounce_seconds then
    (true, { s with last_rebuild_time := current_time })
  else
    (false, s)

/-- `PluginDevWatcher._check_build_success`: `main.js` must exist; in
initial-copy mode its size must be positive; otherwise its modification
time must be less than 30 seconds before `current_time`. -/
def check_build_success (env : FsEnv) (current_time : ℚ)
    (is_initial_copy : Bool) : Bool :=
  if env.present "main.js" then
    if is_initial_copy then
      decide (0 < env.size "main.js")
    else
      decide (current_time - env.mtime "main.js" < 30)
  else
    false

/-- The fixed ordered list `files_to_copy` of `_copy_plugin_files`. -/
def files_to_copy : List String := ["main.js", "styles.css", "manifest.json"]

/-- The `copied_files` accumulator of the loop in `_copy_plugin_files`: a
file name is appended iff it exists in the project root and its copy
succeeds; a copy failure is logged and the loop continues. -/
def copied_files (env : FsEnv) : List String :=
  files_to_copy.filter (fun f => env.present f && env.copy_ok f)

/-- `PluginDevWatcher._copy_plugin_files`: first re-checks build success
via `_check_build_success` (returning failure and copying nothing when the
check fails), then copies each existing file of `files_to_copy`, and
returns success iff the list of copied files is non-empty.  The result is
the returned boolean together with the list of files actually copied. -/
def copy_plugin_files (env : FsEnv) (current_time : ℚ)
    (is_initial_copy : Bool) : Bool × List String :=
  if check_build_success env current_time is_initial_copy = false then
    (false, [])
  else
    let copied := copied_files env
    (!copied.isEmpty, copied)

/-- `PluginDevWatcher._rebuild_plugin`: on `TimeoutExpired` nothing is
copied; on exit code 0 the files are copied via `_copy_plugin_files` in
incremental mode; on a non-zero exit code the failure is logged and
nothing is copied.  The result is the list of files copied for this
trigger. -/
def rebuild_plugin (r : BuildResult) (env : FsEnv)
    (copy_time : ℚ) : List String :=
  if r.timed_out then
    []
  else if r.returncode = 0 then
    (copy_plugin_files env copy_time false).2
  else
    []

/-- `PluginDevWatcher.build_and_copy_once`: fails when the plugin
directory cannot be created; on `TimeoutExpired` or a non-zero exit code
reports failure and copies nothing; on exit code 0 copies via
`_copy_plugin_files` in initial-copy mode and reports its result. -/
def build_and_copy_once (create_dir_ok : Bool) (r : BuildResult)
    (env : FsEnv) (copy_time : ℚ) : Bool × List String :=
  if create_dir_ok = false then
    (false, [])
  else if r.timed_out then
    (false, [])
  else if r.returncode = 0 then
    copy_plugin_files env copy_time true
  else
    (false, [])

/-- `PluginDevWatcher.start_dev_mode`: fails when the plugin directory
cannot be created or the `pnpm run dev` background process cannot be
launched; otherwise waits, performs the initial copy, logs a warning if
it failed, and returns success regardless of the initial copy's
outcome. -/
def start_dev_mode (create_dir_ok : Bool) (launch_ok : Bool)
    (env : FsEnv) (copy_time : ℚ) : Bool :=
  if create_dir_ok = false then
    false
  else if launch_ok = false then
    false
  else
    let _initial := copy_plugin_files env copy_time true
    true

/-- States of the lifecycle controller visible in `main`'s watch branch. -/
inductive ControllerState where
  | watching : ControllerState
  | stopped : ControllerState
deriving Repr, DecidableEq

/-- Watch branch of `main`: when `start_dev_mode` returns failure the
process exits; otherwise the observer is scheduled and started and the
controller sits in the watching loop. -/
def run_watch_mode (create_dir_ok : Bool) (launch_ok : Bool)
    (env : FsEnv) (copy_time : ℚ) : ControllerState :=
  if start_dev_mode create_dir_ok launch_ok env copy_time then
    ControllerState.watching
  else
    ControllerState.stopped

/-- A file-system event as seen by `on_modified`: delivery instant,
directory flag, file name, extension, path components, and whether the
path lies under the project's `src` subtree. -/
structure FileEvent where
  time : ℚ
  is_directory : Bool
  name : String
  suffix : String
  parts : List String
  under_src : Bool

/-- The extension allow-list of `on_modified`. -/
def allowed_suffixes : List String := [".ts", ".tsx", ".js", ".jsx", ".json", ".css"]

/-- The root-level configuration file names accepted by `on_modified`. -/
def config_file_names : List String :=
  ["package.json", "tsconfig.json", "esbuild.config.mjs"]

/-- The hidden-file test of `on_modified`, Python's
`file_path.name.startswith('.')`: the name's first character is a dot. -/
def starts_with_dot (n : String) : Bool :=
  match n.data with
  | [] => false
  | c :: _ => c == '.'

/-- The filtering prelude of `on_modified`: directory events, the build
artifact `main.js`, hidden files, paths under `node_modules`, extensions
outside the allow-list, and files neither under `src` nor in the
root-level configuration list are all irrelevant. -/
def is_relevant_event (e : FileEvent) : Bool :=
  if e.is_directory then
    false
  else if e.name == "main.js" || starts_with_dot e.name ||
      e.parts.contains "node_modules" ||
      !(allowed_suffixes.contains e.suffix) then
    false
  else if !(e.under_src || config_file_names.contains e.name) then
    false
  else
    true

/-- `PluginDevWatcher.on_modified`: irrelevant events return without
touching the state; a relevant event is passed to `_should_rebuild` at its
delivery instant; on rejection the rebuild is skipped; on acceptance the
handler sleeps, rebuilds, and copies on success.  `copy_time` is the
clock value when `_copy_plugin_files` consults it (after the settle sleep
and the build subprocess).  The result is (rebuild triggered, files
copied, new state). -/
def on_modified (s : WatchState) (e : FileEvent) (r : BuildResult)
    (env : FsEnv) (copy_time : ℚ) : Bool × List String × WatchState :=
  if is_relevant_event e = false then
    (false, [], s)
  else
    match should_rebuild e.time s with
    | (false, s1) => (false, [], s1)
    | (true, s1) => (true, rebuild_plugin r env copy_time, s1)

/-- Manifest contents as far as `_load_plugin_info` reads them: accessing
a missing `id` raises `KeyError` (caught, yielding `None`), a missing
`name` falls back to the `id` via `manifest.get`. -/
structure Manifest where
  id : Option String
  name : Option String

/-- The record built by `_load_plugin_info`. -/
structure PluginInfo where
  id : String
  name : String
  plugin_dir : String
deriving Repr, DecidableEq

/-- `PluginDevWatcher._load_plugin_info`: `none` when `manifest.json` is
missing or malformed (the argument is `none`) or when the `id` key is
absent (`KeyError` caught); otherwise the plugin directory is the vault
path joined with `.obsidian/plugins/<id>` and the display name defaults
to the id. -/
def load_plugin_info (obsidian_vault_path : String)
    (manifest_file : Option Manifest) : Option PluginInfo :=
  match manifest_file with
  | none => none
  | some m =>
    match m.id with
    | none => none
    | some i =>
      some { id := i
             name := m.name.getD i
             plugin_dir := obsidian_vault_path ++ "/.obsidian/plugins/" ++ i }

/-- Decisions of the rebuild-debounce gate over a sequence of event
delivery instants, starting from a given `last_rebuild_time`: the state
update of `_should_rebuild` applied in order. -/
def rebuild_gate_results : ℚ → List ℚ → List Bool
  | _, [] => []
  | last, t :: ts =>
    if t - last > rebuild_debounce_seconds then
      true :: rebuild_gate_results t ts
    else
      false :: rebuild_gate_results last ts

/-- C2: for every rebuild invocation whose build subprocess exits with a
non-zero exit code, no file is copied for that trigger, in both the
incremental-rebuild path (`_rebuild_plugin`) and the one-shot path
(`build_and_copy_once`): the copy step is reached only on exit code 0. -/
theorem C2_nonzero_exit_copies_nothing (r : BuildResult) (env : FsEnv)
    (copy_time : ℚ) (create_dir_ok : Bool) (h : r.returncode ≠ 0) :
    rebuild_plugin r env copy_time = [] ∧
    (build_and_copy_once create_dir_ok r env copy_time).2 = [] := by
  constructor
  · unfold rebuild_plugin
    by_cases ht : r.timed_out <;> simp [ht, h]
  · unfold build_and_copy_once
    rcases create_dir_ok with _ | _ <;> by_cases ht : r.timed_out <;>
      simp [ht, h]

/-- Witness for C2 at exit code 1. -/
theorem C2_witness :
    rebuild_plugin ⟨1, false⟩
      ⟨fun _ => true, fun _ => 120, fun _ => 0, fun _ => true⟩ 5 = [] ∧
    (build_and_copy_once true ⟨1, false⟩
      ⟨fun _ => true, fun _ => 120, fun _ => 0, fun _ => true⟩ 5).2 = [] :=
  C2_nonzero_exit_copies_nothing ⟨1, false⟩
    ⟨fun _ => true, fun _ => 120, fun _ => 0, fun _ => true⟩ 5 true
    (by decide)

/-- C3: the verifier never accepts an absent artifact; in initial-copy
mode it accepts iff the artifact is non-empty, independently of its age;
in incremental mode it accepts iff the artifact's age is below 30
seconds, and rejects any artifact at least 30 seconds old regardless of
its size. -/
theorem C3_verifier_policies (env : FsEnv) (current_time : ℚ) :
    (env.present "main.js" = false →
      check_build_success env current_time true = false ∧
      check_build_success env current_time false = false) ∧
    (env.present "main.js" = true →
      (check_build_success env current_time true = true ↔
        0 < env.size "main.js") ∧
      (check_build_success env current_time false = true ↔
        current_time - env.mtime "main.js" < 30)) ∧
    (env.present "main.js" = true →
      30 ≤ current_time - env.mtime "main.js" →
      check_build_success env current_time false = false) := by
  refine ⟨?_, ?_, ?_⟩
  · intro h
    unfold check_build_success
    simp [h]
  · intro h
    unfold check_build_success
    simp [h]
  · intro h hold
    unfold check_build_success
    simp [h, not_lt.mpr hold]

/-- Witness for C3: a non-empty artifact 45 seconds old passes the
initial-copy check but fails the incremental check. -/
theorem C3_witness :
    check_build_success
      ⟨fun _ => true, fun _ => 120, fun _ => 0, fun _ => true⟩ 45 true = true ∧
    check_build_success
      ⟨fun _ => true, fun _ => 120, fun _ => 0, fun _ => true⟩ 45 false = false := by
  have h := C3_verifier_policies
    ⟨fun _ => true, fun _ => 120, fun _ => 0, fun _ => true⟩ 45
  exact ⟨(h.2.1 rfl).1.mpr (by norm_num), h.2.2 rfl (by norm_num)⟩

/-- C9: in incremental mode the verifier consults only existence and
recency, so a recently modified artifact of size zero is accepted. -/
theorem C9_incremental_accepts_empty (env : FsEnv) (current_time : ℚ)
    (hp : env.present "main.js" = true)
    (hr : current_time - env.mtime "main.js" < 30)
    (hs : env.size "main.js" = 0) :
    check_build_success env current_time false = true := by
  unfold check_build_success
  simp [hp, hr]

/-- Witness for C9: an empty artifact with age 5 passes the incremental
check. -/
theorem C9_witness :
    check_build_success
      ⟨fun _ => true, fun _ => 0, fun _ => 0, fun _ => true⟩ 5 false = true :=
  C9_incremental_accepts_empty
    ⟨fun _ => true, fun _ => 0, fun _ => 0, fun _ => true⟩ 5 rfl
    (by norm_num) rfl

/-- C5: when the build-success check passes, the copier's behaviour is a
function of which named files exist (and whether their copies succeed)
only: two filesystem states that agree on existence and copy success of
the three named files, and both pass the verification the caller relied
on, produce identical copy results, whatever the artifact's size and
modification time are. -/
theorem C5_copier_ignores_size_and_mtime (env1 env2 : FsEnv)
    (copy_time : ℚ) (is_initial_copy : Bool)
    (h1 : check_build_success env1 copy_time is_initial_copy = true)
    (h2 : check_build_success env2 copy_time is_initial_copy = true)
    (hp : ∀ f ∈ files_to_copy, env1.present f = env2.present f)
    (hc : ∀ f ∈ files_to_copy, env1.copy_ok f = env2.copy_ok f) :
    copy_plugin_files env1 copy_time is_initial_copy =
      copy_plugin_files env2 copy_time is_initial_copy := by
  have hfiles : copied_files env1 = copied_files env2 := by
    unfold copied_files
    exact List.filter_congr (fun f hf => by rw [hp f hf, hc f hf])
  unfold copy_plugin_files
  rw [h1, h2, hfiles]

/-- Witness for C5: artifact sizes 120 vs 7 and ages 25 vs 5 make no
difference once both states pass the incremental check. -/
theorem C5_witness :
    copy_plugin_files
      ⟨fun _ => true, fun _ => 120, fun _ => 0, fun _ => true⟩ 25 false =
    copy_plugin_files
      ⟨fun _ => true, fun _ => 7, fun _ => 20, fun _ => true⟩ 25 false :=
  C5_copier_ignores_size_and_mtime
    ⟨fun _ => true, fun _ => 120, fun _ => 0, fun _ => true⟩
    ⟨fun _ => true, fun _ => 7, fun _ => 20, fun _ => true⟩ 25 false
    (by norm_num [check_build_success]) (by norm_num [check_build_success])
    (fun f _ => rfl) (fun f _ => rfl)

/-- C6: within one invocation of the copy step, a file is copied iff it
is one of the three named files, exists, and its own copy succeeds — so a
failure on one file never suppresses the others — and the step reports
success iff the list of copied files is non-empty. -/
theorem C6_partial_failure_tolerant (env : FsEnv) (copy_time : ℚ)
    (is_initial_copy : Bool)
    (hchk : check_build_success env copy_time is_initial_copy = true) :
    (∀ f, f ∈ (copy_plugin_files env copy_time is_initial_copy).2 ↔
      (f ∈ files_to_copy ∧ env.present f = true ∧ env.copy_ok f = true)) ∧
    ((copy_plugin_files env copy_time is_initial_copy).1 = true ↔
      (copy_plugin_files env copy_time is_initial_copy).2 ≠ []) ∧
    ((copy_plugin_files env copy_time is_initial_copy).2 = [] →
      (copy_plugin_files env copy_time is_initial_copy).1 = false) := by
  have hiff : (copy_plugin_files env copy_time is_initial_copy).1 = true ↔
      (copy_plugin_files env copy_time is_initial_copy).2 ≠ [] := by
    unfold copy_plugin_files
    rw [hchk]
    simp [List.isEmpty_iff]
  refine ⟨?_, hiff, ?_⟩
  · intro f
    unfold copy_plugin_files copied_files
    rw [hchk]
    simp [List.mem_filter]
  · intro hnil
    cases hb : (copy_plugin_files env copy_time is_initial_copy).1
    · rfl
    · exact absurd hnil (hiff.mp hb)

/-- Witness for C6: with the copy of `main.js` failing and the other two
succeeding, `styles.css` and `manifest.json` are still copied and the
step reports success. -/
theorem C6_witness :
    ("styles.css" ∈ (copy_plugin_files
      ⟨fun _ => true, fun _ => 120, fun _ => 0, fun f => f != "main.js"⟩
      9 true).2) ∧
    ("manifest.json" ∈ (copy_plugin_files
      ⟨fun _ => true, fun _ => 120, fun _ => 0, fun f => f != "main.js"⟩
      9 true).2) ∧
    ("main.js" ∉ (copy_plugin_files
      ⟨fun _ => true, fun _ => 120, fun _ => 0, fun f => f != "main.js"⟩
      9 true).2) ∧
    (copy_plugin_files
      ⟨fun _ => true, fun _ => 120, fun _ => 0, fun f => f != "main.js"⟩
      9 true).1 = true := by
  have h := C6_partial_failure_tolerant
    ⟨fun _ => true, fun _ => 120, fun _ => 0, fun f => f != "main.js"⟩
    9 true (by norm_num [check_build_success])
  refine ⟨(h.1 "styles.css").mpr (by decide), (h.1 "manifest.json").mpr (by decide),
    fun hmem => ?_, h.2.1.mpr (by decide)⟩
  exact absurd ((h.1 "main.js").mp hmem).2.2 (by decide)

/-- C7: descriptor loading fails whenever the manifest lacks an `id`
field; with an `id` the display name defaults to the id when the name
field is absent, and the destination directory is the vault root joined
with `.obsidian/plugins/<id>`. -/
theorem C7_load_plugin_info_spec (vault : String) (m : Manifest) :
    (load_plugin_info vault none = none) ∧
    (m.id = none → load_plugin_info vault (some m) = none) ∧
    (∀ i, m.id = some i →
      load_plugin_info vault (some m) =
        some ⟨i, m.name.getD i, vault ++ "/.obsidian/plugins/" ++ i⟩) ∧
    (∀ i, m.id = some i → m.name = none →
      load_plugin_info vault (some m) =
        some ⟨i, i, vault ++ "/.obsidian/plugins/" ++ i⟩) := by
  refine ⟨rfl, ?_, ?_, ?_⟩
  · intro h
    obtain ⟨mid, mname⟩ := m
    cases mid with
    | none => rfl
    | some i => exact Option.noConfusion h
  · intro i h
    obtain ⟨mid, mname⟩ := m
    cases mid with
    | none => exact Option.noConfusion h
    | some j =>
      obtain rfl : j = i := Option.some.inj h
      rfl
  · intro i h hn
    obtain ⟨mid, mname⟩ := m
    cases mid with
    | none => exact Option.noConfusion h
    | some j =>
      obtain rfl : j = i := Option.some.inj h
      cases mname with
      | none => rfl
      | some nm => exact Option.noConfusion hn

/-- Witness for C7: manifest with id `my-plugin` and no name, vault root
`/vault`, yields display name `my-plugin` and destination
`/vault/.obsidian/plugins/my-plugin`. -/
theorem C7_witness :
    load_plugin_info "/vault" (some ⟨some "my-plugin", none⟩) =
      some ⟨"my-plugin", "my-plugin", "/vault/.obsidian/plugins/my-plugin"⟩ := by
  have h := (C7_load_plugin_info_spec "/vault"
    ⟨some "my-plugin", none⟩).2.2.2 "my-plugin" rfl rfl
  exact h.trans (by decide)

/-- C8: in watch mode a failed initial verify-and-copy pass does not
abort startup — `start_dev_mode` still returns success and the controller
reaches the watching state — while a failure to create the destination
directory or to launch the background process makes `start_dev_mode`
return failure. -/
theorem C8_startup_tolerates_initial_copy_failure (env : FsEnv)
    (copy_time : ℚ) (launch_ok : Bool)
    (hfail : (copy_plugin_files env copy_time true).1 = false) :
    start_dev_mode true true env copy_time = true ∧
    run_watch_mode true true env copy_time = ControllerState.watching ∧
    start_dev_mode false launch_ok env copy_time = false ∧
    start_dev_mode true false env copy_time = false := by
  refine ⟨rfl, ?_, rfl, rfl⟩
  unfold run_watch_mode
  rw [if_pos]
  rfl

/-- Witness for C8: with `main.js` absent the initial copy fails, yet
startup succeeds and the controller is watching. -/
theorem C8_witness :
    (copy_plugin_files
      ⟨fun _ => false, fun _ => 0, fun _ => 0, fun _ => false⟩ 3 true).1 = false ∧
    start_dev_mode true true
      ⟨fun _ => false, fun _ => 0, fun _ => 0, fun _ => false⟩ 3 = true ∧
    run_watch_mode true true
      ⟨fun _ => false, fun _ => 0, fun _ => 0, fun _ => false⟩ 3 =
      ControllerState.watching := by
  have h := C8_startup_tolerates_initial_copy_failure
    ⟨fun _ => false, fun _ => 0, fun _ => 0, fun _ => false⟩ 3 true rfl
  exact ⟨rfl, h.1, h.2.1⟩

/-- When every delivery instant is at most the cooldown after the stored
timestamp, the gate rejects every event and the timestamp never moves. -/
theorem rebuild_gate_all_rejected (last : ℚ) (ts : List ℚ)
    (h : ∀ t ∈ ts, t - last ≤ rebuild_debounce_seconds) :
    rebuild_gate_results last ts = List.replicate ts.length false := by
  induction ts with
  | nil => rfl
  | cons t ts ih =>
    have ht : ¬ (t - last > rebuild_debounce_seconds) :=
      not_lt.mpr (h t (List.mem_cons_self t ts))
    simp only [rebuild_gate_results, if_neg ht, List.length_cons,
      List.replicate_succ]
    exact congrArg (List.cons false)
      (ih (fun t' ht' => h t' (List.mem_cons_of_mem t ht')))

/-- C1: over any sequence of events whose delivery instants all lie in a
window of one rebuild-debounce cooldown (so any two are less than the
cooldown apart), `_should_rebuild` accepts at most one event, whatever
the stored timestamp was when the sequence began. -/
theorem C1_at_most_one_rebuild_per_window (last lo : ℚ) (ts : List ℚ)
    (h : ∀ t ∈ ts, lo ≤ t ∧ t < lo + rebuild_debounce_seconds) :
    (rebuild_gate_results last ts).count true ≤ 1 := by
  induction ts generalizing last with
  | nil => simp [rebuild_gate_results]
  | cons t ts ih =>
    by_cases ha : t - last > rebuild_debounce_seconds
    · simp only [rebuild_gate_results, if_pos ha]
      have hall : ∀ t' ∈ ts, t' - t ≤ rebuild_debounce_seconds := by
        intro t' ht'
        have h1 := (h t' (List.mem_cons_of_mem t ht')).2
        have h2 := (h t (List.mem_cons_self t ts)).1
        linarith
      rw [rebuild_gate_all_rejected t ts hall]
      simp [List.count_replicate]
    · simp only [rebuild_gate_results, if_neg ha, List.count_cons]
      have := ih last (fun t' ht' => h t' (List.mem_cons_of_mem t ht'))
      simpa using this

/-- Witness for C1: three events at 10, 10.5 and 10.9 seconds produce at
most one acceptance. -/
theorem C1_witness :
    (rebuild_gate_results 0 [10, 21/2, 109/10]).count true ≤ 1 :=
  C1_at_most_one_rebuild_per_window 0 10 [10, 21/2, 109/10] (by
    intro t ht
    simp only [List.mem_cons, List.not_mem_nil, or_false] at ht
    rcases ht with rfl | rfl | rfl <;>
      constructor <;> norm_num [rebuild_debounce_seconds])

/-- C10: once `on_modified` accepts a trigger, the stored
`last_rebuild_time` equals the acceptance instant; the post-state is
independent of the build's result and of the filesystem (so a failed,
timed-out or empty rebuild consumes the window all the same), and any
further event delivered at most one cooldown after the acceptance instant
triggers no rebuild. -/
theorem C10_acceptance_consumes_timestamp (s : WatchState) (e : FileEvent)
    (r : BuildResult) (env : FsEnv) (copy_time : ℚ)
    (h : (on_modified s e r env copy_time).1 = true) :
    ((on_modified s e r env copy_time).2.2.last_rebuild_time = e.time) ∧
    (∀ (r' : BuildResult) (env' : FsEnv) (ct' : ℚ),
      (on_modified s e r' env' ct').2.2 =
        (on_modified s e r env copy_time).2.2) ∧
    (∀ (e2 : FileEvent) (r2 : BuildResult) (env2 : FsEnv) (ct2 : ℚ),
      e2.time - e.time ≤ rebuild_debounce_seconds →
      (on_modified ((on_modified s e r env copy_time).2.2)
        e2 r2 env2 ct2).1 = false) := by
  cases hrel : is_relevant_event e with
  | false => simp [on_modified, hrel] at h
  | true =>
    by_cases hacc : e.time - s.last_rebuild_time > rebuild_debounce_seconds
    · have hstate : ∀ (r' : BuildResult) (env' : FsEnv) (ct' : ℚ),
          (on_modified s e r' env' ct').2.2 =
            { s with last_rebuild_time := e.time } := by
        intro r' env' ct'
        simp [on_modified, hrel, should_rebuild, hacc]
      refine ⟨by rw [hstate], fun r' env' ct' => by rw [hstate, hstate], ?_⟩
      intro e2 r2 env2 ct2 hle
      rw [hstate]
      cases hrel2 : is_relevant_event e2 with
      | false => simp [on_modified, hrel2]
      | true =>
        have hno : ¬ (e2.time - e.time > rebuild_debounce_seconds) :=
          not_lt.mpr hle
        simp [on_modified, hrel2, should_rebuild, hno]
    · exfalso
      simp [on_modified, hrel, should_rebuild, hacc] at h

/-- Witness for C10: an accepted trigger at 5 whose build exits 1 still
blocks the event at 5.5. -/
theorem C10_witness :
    (on_modified
      ((on_modified ⟨0, 0⟩ ⟨5, false, "main.ts", ".ts", ["src", "main.ts"], true⟩
        ⟨1, false⟩ ⟨fun _ => true, fun _ => 120, fun _ => 0, fun _ => true⟩ 6).2.2)
      ⟨11/2, false, "main.ts", ".ts", ["src", "main.ts"], true⟩
      ⟨0, false⟩ ⟨fun _ => true, fun _ => 120, fun _ => 0, fun _ => true⟩ 7).1 =
      false :=
  (C10_acceptance_consumes_timestamp ⟨0, 0⟩
    ⟨5, false, "main.ts", ".ts", ["src", "main.ts"], true⟩ ⟨1, false⟩
    ⟨fun _ => true, fun _ => 120, fun _ => 0, fun _ => true⟩ 6
    (by norm_num [on_modified, is_relevant_event, starts_with_dot,
      should_rebuild, rebuild_debounce_seconds] <;> decide)).2.2
    ⟨11/2, false, "main.ts", ".ts", ["src", "main.ts"], true⟩ ⟨0, false⟩
    ⟨fun _ => true, fun _ => 120, fun _ => 0, fun _ => true⟩ 7
    (by norm_num [rebuild_debounce_seconds])

/-- C4 counterexample: with `last_copy_time = 10` and
`last_rebuild_time = 0`, the change-acceptance gate `_should_copy`
rejects the instant 11, yet the relevant event delivered at 11 still
triggers a rebuild — `on_modified` consults only `_should_rebuild`, so an
event rejected by the change-acceptance gate is not stopped. -/
theorem C4_counterexample :
    (should_copy 11 ⟨10, 0⟩).1 = false ∧
    (on_modified ⟨10, 0⟩ ⟨11, false, "main.ts", ".ts", ["src", "main.ts"], true⟩
      ⟨0, false⟩ ⟨fun _ => true, fun _ => 120, fun _ => 0, fun _ => true⟩
      12).1 = true := by
  constructor
  · norm_num [should_copy, debounce_seconds]
  · norm_num [on_modified, is_relevant_event, starts_with_dot,
      should_rebuild, rebuild_debounce_seconds] <;> decide

/-- C4 (amended): in watch mode a relevant file-system event is gated by
the rebuild-acceptance gate alone (cooldown `rebuild_debounce_seconds`,
default 1 second): it triggers a rebuild iff that gate's cooldown has
elapsed, the decision ignores `last_copy_time` entirely (the
change-acceptance gate with the 2-second default cooldown is never
consulted by `on_modified`), and an event rejected by the
rebuild-acceptance gate triggers no rebuild and copies nothing. -/
theorem C4_single_gate_amended (s : WatchState) (e : FileEvent)
    (r : BuildResult) (env : FsEnv) (copy_time : ℚ)
    (hrel : is_relevant_event e = true) :
    ((on_modified s e r env copy_time).1 = true ↔
      e.time - s.last_rebuild_time > rebuild_debounce_seconds) ∧
    (∀ lc : ℚ,
      (on_modified { s with last_copy_time := lc } e r env copy_time).1 =
        (on_modified s e r env copy_time).1) ∧
    (e.time - s.last_rebuild_time ≤ rebuild_debounce_seconds →
      (on_modified s e r env copy_time).1 = false ∧
      (on_modified s e r env copy_time).2.1 = []) := by
  by_cases hacc : e.time - s.last_rebuild_time > rebuild_debounce_seconds
  · refine ⟨?_, ?_, ?_⟩
    · simp [on_modified, hrel, should_rebuild, hacc]
    · intro lc
      simp [on_modified, hrel, should_rebuild, hacc]
    · intro hle
      exact absurd hacc (not_lt.mpr hle)
  · refine ⟨?_, ?_, ?_⟩
    · simp [on_modified, hrel, should_rebuild, hacc]
    · intro lc
      simp [on_modified, hrel, should_rebuild, hacc]
    · intro hle
      constructor <;> simp [on_modified, hrel, should_rebuild, hacc]

/-- Witness for the amended C4: a relevant event at 11 with the rebuild
timestamp at 0 triggers a rebuild, and the outcome is the same whatever
`last_copy_time` holds. -/
theorem C4_witness :
    ((on_modified ⟨10, 0⟩
      ⟨11, false, "main.ts", ".ts", ["src", "main.ts"], true⟩ ⟨0, false⟩
      ⟨fun _ => true, fun _ => 120, fun _ => 0, fun _ => true⟩ 12).1 = true) ∧
    ((on_modified ⟨1000, 0⟩
      ⟨11, false, "main.ts", ".ts", ["src", "main.ts"], true⟩ ⟨0, false⟩
      ⟨fun _ => true, fun _ => 120, fun _ => 0, fun _ => true⟩ 12).1 =
      (on_modified ⟨10, 0⟩
        ⟨11, false, "main.ts", ".ts", ["src", "main.ts"], true⟩ ⟨0, false⟩
        ⟨fun _ => true, fun _ => 120, fun _ => 0, fun _ => true⟩ 12).1) := by
  have h := C4_single_gate_amended ⟨10, 0⟩
    ⟨11, false, "main.ts", ".ts", ["src", "main.ts"], true⟩ ⟨0, false⟩
    ⟨fun _ => true, fun _ => 120, fun _ => 0, fun _ => true⟩ 12 (by decide)
  exact ⟨h.1.mpr (by norm_num [rebuild_debounce_seconds]), h.2.1 1000⟩

end DevWatcher
